import Mathlib

/-!
Verification development for the `print_auto` repository (`src/app.py`).

The Python source is shallowly embedded below:

* `parse_page_range`, `split_pdf_pages` — the page-range parser and the
  odd/even document splitter (pages are represented by their 0-based
  original index; writing an output file is recorded as a trace event
  `(path, page indices in written order)`).
* `SessionInfo`, `get_session_info`, `apply_odd_print_success`,
  `apply_even_print_success` — the persisted print-session record, the
  resume endpoint and the mutations performed by the print endpoints.
* `get_print_job_status_of_listing` — the print-queue status resolver's
  line-by-line parse of the `lpstat` listing text.
* `print_pdf`, `find_lp_command`, `get_default_printer` — the print
  submission path, over an abstract OS environment; every spawned
  external process is recorded in a trace.

Python string primitives (`strip`, `lower`, `split`, `splitlines`,
`int(...)`, substring tests) are modelled by structurally recursive
functions over `List Char` so that all definitions reduce in the kernel.
-/

/-! ## Python string primitives -/

/-- Python `str.strip()` (ASCII whitespace; the source only meets ASCII
and CJK text, and CJK characters are not whitespace). -/
def py_strip (s : String) : String :=
  String.mk (((s.toList.dropWhile Char.isWhitespace).reverse.dropWhile
    Char.isWhitespace).reverse)

/-- Python `str.lower()` on the characters of the string. -/
def py_lower (s : String) : String :=
  String.mk (s.toList.map Char.toLower)

/-- Helper for `py_split_ws`: accumulate the current word (reversed). -/
def py_split_ws_aux : List Char → List Char → List String
  | [], cur => if cur = [] then [] else [String.mk cur.reverse]
  | c :: cs, cur =>
    if c.isWhitespace then
      if cur = [] then py_split_ws_aux cs []
      else String.mk cur.reverse :: py_split_ws_aux cs []
    else py_split_ws_aux cs (c :: cur)

/-- Python `str.split()` with no argument: split on runs of whitespace,
no empty items. -/
def py_split_ws (s : String) : List String :=
  py_split_ws_aux s.toList []

/-- Helper for `py_splitlines`: accumulate the current line (reversed). -/
def py_splitlines_aux : List Char → List Char → List String
  | [], cur => if cur = [] then [] else [String.mk cur.reverse]
  | '\r' :: '\n' :: cs, cur => String.mk cur.reverse :: py_splitlines_aux cs []
  | '\n' :: cs, cur => String.mk cur.reverse :: py_splitlines_aux cs []
  | '\r' :: cs, cur => String.mk cur.reverse :: py_splitlines_aux cs []
  | c :: cs, cur => py_splitlines_aux cs (c :: cur)

/-- Python `str.splitlines()`: split on line boundaries, no trailing
empty line. -/
def py_splitlines (s : String) : List String :=
  py_splitlines_aux s.toList []

/-- Python `str.split(sep)` for a one-character separator: always returns
at least one (possibly empty) item. -/
def split_char (sep : Char) : List Char → List (List Char)
  | [] => [[]]
  | c :: cs =>
    let r := split_char sep cs
    if c = sep then [] :: r
    else (c :: r.headD []) :: r.tail

/-- Python `needle in haystack` substring test. -/
def contains_sub (haystack needle : String) : Bool :=
  haystack.toList.tails.any (fun t => needle.toList.isPrefixOf t)

/-- Python `ch in s` membership test for a single character. -/
def py_contains (s : String) (c : Char) : Bool :=
  s.toList.contains c

/-- Digits of a candidate integer literal, as a number; `none` unless the
list is nonempty and all decimal digits. -/
def digits_to_nat (l : List Char) : Option Nat :=
  if l ≠ [] ∧ l.all Char.isDigit then
    some (l.foldl (fun a c => a * 10 + (c.toNat - 48)) 0)
  else none

/-- Python `int(s)`: optional surrounding whitespace, optional sign, then
decimal digits (digit-grouping underscores are not modelled; the parser
never feeds them in the repository's test inputs). -/
def str_to_int (s : String) : Option Int :=
  match (s.toList.dropWhile Char.isWhitespace).reverse.dropWhile
      Char.isWhitespace |>.reverse with
  | '-' :: ds => (digits_to_nat ds).map (fun n => -(n : Int))
  | '+' :: ds => (digits_to_nat ds).map (fun n => (n : Int))
  | ds => (digits_to_nat ds).map (fun n => (n : Int))

/-! ## PageRangeParser (`parse_page_range`, src/app.py lines 321-369) -/

/-- Python `part.split('-', 1)[0]`: the text before the first dash. -/
def before_dash (part : String) : String :=
  String.mk (part.toList.takeWhile (fun c => c ≠ '-'))

/-- Python `part.split('-', 1)[1]`: the text after the first dash. -/
def after_dash (part : String) : String :=
  String.mk ((part.toList.dropWhile (fun c => c ≠ '-')).drop 1)

/-- `start_page = int(start) - 1; if start_page < 0: start_page = 0`. -/
def clamp_start (st : Int) : Int :=
  if st - 1 < 0 then 0 else st - 1

/-- `end_page = int(end) - 1; if end_page >= total_pages: end_page =
total_pages - 1`. -/
def clamp_end (total_pages : Nat) (en : Int) : Int :=
  if en - 1 ≥ (total_pages : Int) then (total_pages : Int) - 1 else en - 1

/-- Python `range(s, e + 1)` over integers `0 ≤ s`, as 0-based `Nat`
indices: empty whenever `e < s`. -/
def int_range (s e : Int) : List Nat :=
  List.range' s.toNat (e + 1 - s).toNat

/-- `range(start_page, end_page + 1)` after both clamps; empty when the
clamped start exceeds the clamped end (`if start_page <= end_page`). -/
def clamped_range (total_pages : Nat) (st en : Int) : List Nat :=
  if clamp_start st ≤ clamp_end total_pages en then
    int_range (clamp_start st) (clamp_end total_pages en)
  else []

/-- One iteration of the token loop in `parse_page_range`: the indices the
token contributes (`.ok`), or the `ValueError` it raises (`.error`).
Empty tokens are skipped; a token containing a dash is a range (both
halves go through `int`, then the clamps); any other token is a single
1-based page number, silently dropped when outside `[1, total_pages]`. -/
def proc_token (total_pages : Nat) (part : String) : Except String (List Nat) :=
  if part = "" then .ok []
  else if py_contains part '-' then
    match str_to_int (before_dash part), str_to_int (after_dash part) with
    | some st, some en => .ok (clamped_range total_pages st en)
    | _, _ => .error ("无效的页码范围格式: " ++ part)
  else
    match str_to_int part with
    | some n =>
      if 0 ≤ n - 1 ∧ n - 1 < (total_pages : Int) then .ok [(n - 1).toNat]
      else .ok []
    | none => .error ("无效的页码: " ++ part)

/-- The token loop of `parse_page_range`: contributions of all tokens in
order, stopping at the first token that raises. -/
def proc_tokens (total_pages : Nat) : List String → Except String (List Nat)
  | [] => .ok []
  | part :: rest =>
    match proc_token total_pages part with
    | .error m => .error m
    | .ok c =>
      match proc_tokens total_pages rest with
      | .error m => .error m
      | .ok cs => .ok (c ++ cs)

/-- `page_range_str.replace(' ', '').split(',')`. -/
def py_split_comma (s : String) : List String :=
  (split_char ',' (s.toList.filter (fun c => c ≠ ' '))).map String.mk

/-- Python `sorted(list(page_indices))` where `page_indices` is a set:
the ascending list of the distinct collected indices. -/
def sorted_unique (l : List Nat) : List Nat :=
  (l.insertionSort (· ≤ ·)).dedup

/-- `parse_page_range(page_range_str, total_pages)` (src/app.py): empty or
whitespace-only expression selects every page; otherwise the tokens'
contributions are collected into a set and returned sorted ascending.
`.error` models the raised `ValueError`. -/
def parse_page_range (page_range_str : String) (total_pages : Nat) :
    Except String (List Nat) :=
  if py_strip page_range_str = "" then .ok (List.range total_pages)
  else
    match proc_tokens total_pages (py_split_comma page_range_str) with
    | .error m => .error m
    | .ok idxs => .ok (sorted_unique idxs)

/-! ## DocumentSplitter (`split_pdf_pages`, src/app.py lines 372-427)

A page object `reader.pages[idx]` is represented by its 0-based original
index `idx`; the input document by its page count. Writing an output
file is recorded as a trace event `(path, page indices in written
order)`; the even-pages file is written first, as in the source. -/

/-- The `odd_pages` list built by the partition loop: selected indices at
even 0-based original positions (the document's 1st, 3rd, 5th… pages),
in selection order. -/
def odd_pages_of (sel : List Nat) : List Nat :=
  sel.filter (fun idx => idx % 2 == 0)

/-- The `even_pages` list built by the partition loop: selected indices at
odd 0-based original positions, in selection order. -/
def even_pages_of (sel : List Nat) : List Nat :=
  sel.filter (fun idx => idx % 2 == 1)

/-- The `(odd_path, even_path, total_pages, selected_count)` tuple
returned by `split_pdf_pages`. -/
structure SplitOk where
  odd_path : String
  even_path : String
  total_pages : Nat
  selected_count : Nat
deriving DecidableEq

/-- `split_pdf_pages(pdf_path, output_dir, page_range_str)`: resolve the
selection, raise `'没有选择任何页面'` when it is empty, otherwise write
the even-pages file (ascending) then the odd-pages file (reversed). -/
def split_pdf_pages (total_pages : Nat) (output_dir : String)
    (page_range_str : Option String) :
    Except String SplitOk × List (String × List Nat) :=
  match parse_page_range (page_range_str.getD "") total_pages with
  | .error m => (.error m, [])
  | .ok selected_indices =>
    if selected_indices.length = 0 then (.error "没有选择任何页面", [])
    else
      let odd_pages := odd_pages_of selected_indices
      let even_pages := even_pages_of selected_indices
      let even_path := output_dir ++ "/even_pages.pdf"
      let odd_path := output_dir ++ "/odd_pages.pdf"
      (.ok ⟨odd_path, even_path, total_pages, selected_indices.length⟩,
       [(even_path, even_pages), (odd_path, odd_pages.reverse)])

/-! ## PrintSession (`session_info` record and its mutations) -/

/-- The persisted `session.json` record created by `upload_file`. The
`odd_job_id`/`even_job_id`/`printer_name` keys are absent until the first
successful print submission; absence is modelled as `none`. -/
structure SessionInfo where
  filename : String
  upload_path : String
  temp_dir : String
  odd_path : String
  even_path : String
  total_pages : Nat
  selected_count : Nat
  page_range : Option String
  odd_printed : Bool
  even_printed : Bool
  odd_job_id : Option String
  even_job_id : Option String
  printer_name : Option String
deriving DecidableEq

/-- The mutation `print_odd_pages` performs on the session record after a
successful submission (src/app.py lines 998-1003): set `odd_printed`,
`odd_job_id` and `printer_name`. -/
def apply_odd_print_success (s : SessionInfo) (printer_name : Option String)
    (job_id : Option String) : SessionInfo :=
  { s with odd_printed := true, odd_job_id := job_id,
           printer_name := printer_name }

/-- The mutation `print_even_pages` performs on the session record after a
successful submission (src/app.py lines 1054-1059): set `even_printed`,
`even_job_id` and `printer_name`. -/
def apply_even_print_success (s : SessionInfo) (printer_name : Option String)
    (job_id : Option String) : SessionInfo :=
  { s with even_printed := true, even_job_id := job_id,
           printer_name := printer_name }

/-- The JSON payload built by the resume endpoint `get_session_info`. -/
structure SessionInfoResponse where
  session_id : String
  filename : String
  total_pages : Nat
  selected_pages : Nat
  odd_pages : Nat
  even_pages : Nat
  odd_printed : Bool
  even_printed : Bool
  printer_name : Option String
  page_range : String
  odd_exists : Bool
  even_exists : Bool
  can_continue : Bool
deriving DecidableEq

/-- `get_session_info(session_id)` (src/app.py lines 1122-1165) on a
session that was found on disk; `path_exists` abstracts
`os.path.exists`. The odd/even counts are recomputed from the stored
page range (falling back to halving the selected count when the stored
range fails to parse), and `can_continue` is derived from the two
printed flags and the existence of the odd-pages file. -/
def get_session_info (session_id : String) (s : SessionInfo)
    (path_exists : String → Bool) : SessionInfoResponse :=
  let odd_exists := path_exists s.odd_path
  let even_exists := path_exists s.even_path
  let counts : Nat × Nat :=
    if s.page_range.getD "" ≠ "" ∧ s.total_pages > 0 then
      match parse_page_range (s.page_range.getD "") s.total_pages with
      | .ok selected_indices =>
        let odd_count := (selected_indices.filter (fun idx => idx % 2 == 0)).length
        (odd_count, selected_indices.length - odd_count)
      | .error _ => ((s.selected_count + 1) / 2, s.selected_count / 2)
    else ((s.total_pages + 1) / 2, s.total_pages / 2)
  { session_id := session_id
    filename := s.filename
    total_pages := s.total_pages
    selected_pages := s.selected_count
    odd_pages := counts.1
    even_pages := counts.2
    odd_printed := s.odd_printed
    even_printed := s.even_printed
    printer_name := s.printer_name
    page_range := match s.page_range with
      | some pr => if pr ≠ "" then pr else "全部页面"
      | none => "全部页面"
    odd_exists := odd_exists
    even_exists := even_exists
    can_continue := s.even_printed && !s.odd_printed && odd_exists }

/-! ## PrintStatusResolver (`get_print_job_status`, src/app.py lines 467-718)

The subprocess query precedes the parse; its stdout text is the
parameter here. The per-job page-progress enrichment loop only acts on
jobs whose id matches a supplied session's recorded job ids; with no
session it is the identity, which is the configuration modelled. -/

/-- One parsed job record of the queue listing. -/
structure PrintJob where
  job_id : String
  status : String
  info : String
  details : List String
deriving DecidableEq

/-- `part.split('-')[-1].isdigit()` guarded by `'-' in part`: does this
whitespace-separated word look like a `<printer>-<digits>` job id? -/
def job_id_shaped (part : String) : Bool :=
  py_contains part '-' &&
    (let last := (split_char '-' part.toList).getLastD []
     !last.isEmpty && last.all Char.isDigit)

/-- The status-keyword cascade of the standard-format branch (method 2):
printing, completed, held, cancelled (localized or English), else
queued. -/
def line_status (line : String) : String :=
  if contains_sub (py_lower line) "printing" || contains_sub line "正在打印" then
    "printing"
  else if contains_sub (py_lower line) "completed" ||
      contains_sub (py_lower line) "已完成" then "completed"
  else if contains_sub (py_lower line) "held" ||
      contains_sub (py_lower line) "已暂停" then "held"
  else if contains_sub (py_lower line) "cancelled" ||
      contains_sub (py_lower line) "已取消" then "cancelled"
  else "queued"

/-- The new-job detection on a stripped, nonblank line: method 1 (a
printing-keyword line containing a job-id-shaped word anywhere) then
method 2 (a job-id-shaped first word plus the keyword cascade); `none`
when the line matches no job pattern. -/
def new_job_of_line (line : String) : Option (String × String) :=
  let parts := py_split_ws line
  if parts.length ≥ 2 then
    let method1 :=
      if contains_sub line "正在打印" ||
          contains_sub (py_lower line) "printing" then
        (parts.find? job_id_shaped).map (fun p => (p, "printing"))
      else none
    match method1 with
    | some r => some r
    | none =>
      match parts.head? with
      | some potential_job_id =>
        if job_id_shaped potential_job_id then
          some (potential_job_id, line_status line)
        else none
      | none => none
  else none

/-- The line loop of `get_print_job_status`: a blank line flushes the
current job; a new-job line flushes and opens a job; any other line is
appended to the current job's details, or skipped when no job is open. -/
def parse_queue_lines : List String → Option PrintJob → List PrintJob
  | [], cur => match cur with
    | some j => [j]
    | none => []
  | l :: rest, cur =>
    let line := py_strip l
    if line = "" then
      match cur with
      | some j => j :: parse_queue_lines rest none
      | none => parse_queue_lines rest none
    else
      match new_job_of_line line with
      | some (jid, st) =>
        match cur with
        | some j => j :: parse_queue_lines rest (some ⟨jid, st, line, []⟩)
        | none => parse_queue_lines rest (some ⟨jid, st, line, []⟩)
      | none =>
        match cur with
        | some j => parse_queue_lines rest (some { j with details := j.details ++ [line] })
        | none => parse_queue_lines rest none

/-- The success payload of `get_print_job_status`. -/
structure StatusResult where
  success : Bool
  jobs : List PrintJob
  job_count : Nat
  has_jobs : Bool
deriving DecidableEq

/-- `get_print_job_status` applied to the queue listing text it read from
`lpstat` (no session supplied, so the page-progress pass is the
identity): always a success envelope around the parsed job list. -/
def get_print_job_status_of_listing (stdout : String) : StatusResult :=
  let jobs := parse_queue_lines (py_splitlines stdout) none
  { success := true
    jobs := jobs
    job_count := jobs.length
    has_jobs := decide (jobs.length > 0) }

/-! ## PrintQueueClient (`print_pdf`, `find_lp_command`,
`get_default_printer`, src/app.py lines 430-465, 124-155, 721-848)

The OS is abstracted: `path_exists`/`readable`/`executable` model
`os.path.exists`/`os.access(..., R_OK)`/`os.access(..., X_OK)`, and
`run` models `subprocess.run`, keyed by the exact call made. Every
spawned process is recorded in the returned trace, in order. -/

/-- One `subprocess.run` invocation: an argv list, or a `shell=True`
command string. -/
inductive ProcCall where
  | argv (args : List String)
  | shell (cmd : String)
deriving DecidableEq

/-- The outcome of a `subprocess.run` invocation: a finished process with
return code and captured output, a timeout, or a spawn failure
(`FileNotFoundError`). -/
inductive RunOutcome where
  | finished (returncode : Int) (stdout stderr : String)
  | timedOut
  | execMissing (msg : String)
deriving DecidableEq

/-- The abstract OS environment the print path runs against. -/
structure OsEnv where
  path_exists : String → Bool
  readable : String → Bool
  executable : String → Bool
  run : ProcCall → RunOutcome

/-- `find_lp_command()`: probe well-known absolute paths, then fall back
to a `which lp` lookup through `/bin/sh`; the trace records the lookup
process when it is spawned. -/
def find_lp_command (os : OsEnv) : Option String × List ProcCall :=
  match ["/usr/bin/lp", "/usr/local/bin/lp", "/bin/lp"].find?
      (fun p => os.path_exists p && os.executable p) with
  | some path => (some path, [])
  | none =>
    let call := ProcCall.argv ["/bin/sh", "-c", "which lp"]
    (match os.run call with
     | .finished rc out _ =>
       if rc = 0 then
         let found_path := py_strip out
         if found_path ≠ "" && os.path_exists found_path then some found_path
         else none
       else none
     | _ => none,
     [call])

/-- `find_lpstat_command()`: same shape as `find_lp_command`, for
`lpstat`. -/
def find_lpstat_command (os : OsEnv) : Option String × List ProcCall :=
  match ["/usr/bin/lpstat", "/usr/local/bin/lpstat", "/bin/lpstat"].find?
      (fun p => os.path_exists p && os.executable p) with
  | some path => (some path, [])
  | none =>
    let call := ProcCall.argv ["/bin/sh", "-c", "which lpstat"]
    (match os.run call with
     | .finished rc out _ =>
       if rc = 0 then
         let found_path := py_strip out
         if found_path ≠ "" && os.path_exists found_path then some found_path
         else none
       else none
     | _ => none,
     [call])

/-- The `lpstat -d` stdout scan of `get_default_printer`: the first line
containing `system default destination:` (case-insensitively) with text
after the colon yields the stripped destination name. -/
def default_dest_lines : List String → Option String
  | [] => none
  | l :: rest =>
    if contains_sub (py_lower l) "system default destination:" then
      match split_char ':' l.toList with
      | _ :: p1 :: _ => some (py_strip (String.mk p1))
      | _ => default_dest_lines rest
    else default_dest_lines rest

/-- `get_default_printer()`: locate `lpstat`, run `lpstat -d`
(`check=True`, so a nonzero exit or spawn failure lands in the bare
`except` and yields `None`), and scan its stdout. -/
def get_default_printer (os : OsEnv) : Option String × List ProcCall :=
  match find_lpstat_command os with
  | (none, calls) => (none, calls)
  | (some lpstat_command, calls) =>
    let call := ProcCall.argv [lpstat_command, "-d"]
    (match os.run call with
     | .finished 0 out _ =>
       default_dest_lines ((split_char '\n' out.toList).map String.mk)
     | _ => none,
     calls ++ [call])

/-- Case-insensitive prefix test for the fixed pattern of
`extract`-job-id matching (pattern letters are lowercase). -/
def ci_starts (pat : List Char) (s : List Char) : Bool :=
  match pat, s with
  | [], _ => true
  | _, [] => false
  | p :: ps, c :: cs => (c.toLower = p) && ci_starts ps cs

/-- The `\s+(\S+)` tail of the job-id pattern: at least one whitespace
character, then the longest nonempty run of non-whitespace. -/
def job_id_after (s : List Char) : Option String :=
  let ws := s.takeWhile Char.isWhitespace
  let tok := (s.dropWhile Char.isWhitespace).takeWhile (fun c => !c.isWhitespace)
  if !ws.isEmpty && !tok.isEmpty then some (String.mk tok) else none

/-- `re.search(r'request id is\s+(\S+)', stdout, re.IGNORECASE)`: scan for
the first position where the pattern matches and return the captured
token. -/
def find_request_id : List Char → Option String
  | [] => none
  | c :: rest =>
    if ci_starts "request id is".toList (c :: rest) then
      match job_id_after ((c :: rest).drop 13) with
      | some tok => some tok
      | none => find_request_id rest
    else find_request_id rest

/-- The `(success, error, job_id)` result tuple of `print_pdf`. -/
structure PrintResult where
  success : Bool
  error : Option String
  job_id : Option String
deriving DecidableEq

/-- The `except subprocess.CalledProcessError` classification chain of
`print_pdf` (first match wins), given `error_msg` and its context. -/
def classify_lp_error (error_msg : String) (printer_name : Option String)
    (lp_command : String) (str_e : String) : PrintResult :=
  if contains_sub error_msg "Unable to locate printer" ||
      contains_sub error_msg "printer does not exist" then
    ⟨false, some ("找不到打印机: " ++ printer_name.getD "默认打印机"), none⟩
  else if contains_sub (py_lower error_msg) "permission denied" then
    ⟨false, some "打印权限被拒绝，请检查系统权限设置", none⟩
  else if contains_sub (py_lower error_msg) "no default destination" then
    ⟨false, some "没有默认打印机，请选择打印机", none⟩
  else if contains_sub error_msg "No such file or directory" then
    ⟨false, some ("打印命令执行失败: " ++ py_strip error_msg ++
      ". 使用的命令路径: " ++ lp_command), none⟩
  else
    ⟨false, some ("打印失败: " ++
      (if py_strip error_msg ≠ "" then py_strip error_msg else str_e) ++
      ". 使用的命令路径: " ++ lp_command), none⟩

/-- The `subprocess.run(cmd, shell=True, check=True, timeout=30)` step of
`print_pdf` and its surrounding `try`/`except` arms. `str(e)` for a
`CalledProcessError` is modelled by its stable prefix text. -/
def run_lp (os : OsEnv) (cmd : String) (printer_name : Option String)
    (lp_command : String) (prior : List ProcCall) :
    PrintResult × List ProcCall :=
  let call := ProcCall.shell cmd
  let trace := prior ++ [call]
  match os.run call with
  | .finished rc out err =>
    if rc = 0 then (⟨true, none, find_request_id out.toList⟩, trace)
    else
      let str_e := "Command returned non-zero exit status " ++ toString rc ++ "."
      let error_msg := if err ≠ "" then err else if out ≠ "" then out else str_e
      (classify_lp_error error_msg printer_name lp_command str_e, trace)
  | .timedOut => (⟨false, some "打印超时，请检查打印机状态", none⟩, trace)
  | .execMissing m =>
    (⟨false, some ("找不到打印命令: " ++ m ++ "。命令路径: " ++ lp_command ++
      "。请确保系统已安装CUPS打印服务"), none⟩, trace)

/-- `print_pdf(pdf_path, printer_name, print_quality, output_order)`
(src/app.py lines 721-848): validate the file, locate `lp` (with the
hardcoded `/usr/bin/lp` fallback), validate the located command and the
quality/order options, resolve the default printer when none is named,
build the shell command and submit it. The second component is the trace
of every spawned process, in order. -/
def print_pdf (os : OsEnv) (pdf_path : String) (printer_name : Option String)
    (print_quality : String) (output_order : String) :
    PrintResult × List ProcCall :=
  if !os.path_exists pdf_path then
    (⟨false, some ("文件不存在: " ++ pdf_path), none⟩, [])
  else if !os.readable pdf_path then
    (⟨false, some ("文件不可读: " ++ pdf_path), none⟩, [])
  else
    match find_lp_command os with
    | (lp_found, lp_calls) =>
      let lp_resolved : Option String :=
        match lp_found with
        | some lp => some lp
        | none =>
          if os.path_exists "/usr/bin/lp" && os.executable "/usr/bin/lp" then
            some "/usr/bin/lp"
          else none
      match lp_resolved with
      | none =>
        (⟨false, some "找不到打印命令(lp)，请确保系统已安装CUPS打印服务。尝试的路径: /usr/bin/lp",
          none⟩, lp_calls)
      | some lp_command =>
        if !os.path_exists lp_command then
          (⟨false, some ("打印命令不存在: " ++ lp_command), none⟩, lp_calls)
        else if !os.executable lp_command then
          (⟨false, some ("打印命令不可执行: " ++ lp_command), none⟩, lp_calls)
        else
          let q := if ["High", "Normal", "Draft"].contains print_quality then
            print_quality else "Normal"
          let ord := if ["normal", "reverse"].contains output_order then
            output_order else "normal"
          match printer_name with
          | some pname =>
            let cmd := lp_command ++ " -d \"" ++ pname ++
              "\" -o cupsPrintQuality=" ++ q ++ " -o outputorder=" ++ ord ++
              " \"" ++ pdf_path ++ "\""
            run_lp os cmd (some pname) lp_command lp_calls
          | none =>
            match get_default_printer os with
            | (none, d_calls) =>
              (⟨false, some "没有默认打印机，请选择打印机", none⟩,
               lp_calls ++ d_calls)
            | (some _, d_calls) =>
              let cmd := lp_command ++ " -o cupsPrintQuality=" ++ q ++
                " -o outputorder=" ++ ord ++ " \"" ++ pdf_path ++ "\""
              run_lp os cmd none lp_command (lp_calls ++ d_calls)

/-! ## Parser lemmas -/

theorem clamp_start_eq_max (st : Int) : clamp_start st = max (st - 1) 0 := by
  unfold clamp_start
  split <;> omega

theorem clamp_end_eq_min (total_pages : Nat) (en : Int) :
    clamp_end total_pages en = min (en - 1) ((total_pages : Int) - 1) := by
  unfold clamp_end
  split <;> omega

theorem mem_int_range {s e : Int} {i : Nat} (h0 : 0 ≤ s) :
    i ∈ int_range s e ↔ (s ≤ (i : Int) ∧ (i : Int) ≤ e) := by
  unfold int_range
  rw [List.mem_range'_1]
  omega

theorem mem_clamped_range {total_pages : Nat} {st en : Int} {i : Nat} :
    i ∈ clamped_range total_pages st en ↔
      (max (st - 1) 0 ≤ (i : Int) ∧
       (i : Int) ≤ min (en - 1) ((total_pages : Int) - 1)) := by
  unfold clamped_range
  rw [clamp_start_eq_max, clamp_end_eq_min]
  split
  · exact mem_int_range (le_max_right _ _)
  · simp only [List.not_mem_nil, false_iff]
    omega

theorem proc_token_ok_bounds {total_pages : Nat} {part : String} {l : List Nat}
    (h : proc_token total_pages part = .ok l) : ∀ i ∈ l, i < total_pages := by
  intro i hi
  unfold proc_token at h
  split at h
  · cases h
    simp at hi
  · split at h
    · split at h
      · cases h
        rw [mem_clamped_range] at hi
        omega
      · cases h
    · split at h
      · split at h
        · cases h
          simp at hi
          subst hi
          rename_i hcond _
          omega
        · cases h
          simp at hi
      · cases h

theorem proc_tokens_ok_bounds {total_pages : Nat} :
    ∀ {parts : List String} {l : List Nat},
      proc_tokens total_pages parts = .ok l → ∀ i ∈ l, i < total_pages := by
  intro parts
  induction parts with
  | nil =>
    intro l h i hi
    cases h
    simp at hi
  | cons part rest ih =>
    intro l h i hi
    unfold proc_tokens at h
    cases hp : proc_token total_pages part with
    | error m => rw [hp] at h; cases h
    | ok c =>
      rw [hp] at h
      cases hr : proc_tokens total_pages rest with
      | error m => rw [hr] at h; cases h
      | ok cs =>
        rw [hr] at h
        cases h
        rcases List.mem_append.mp hi with h1 | h2
        · exact proc_token_ok_bounds hp i h1
        · exact ih hr i h2

theorem mem_sorted_unique {l : List Nat} {i : Nat} :
    i ∈ sorted_unique l ↔ i ∈ l := by
  unfold sorted_unique
  rw [List.mem_dedup]
  exact (List.perm_insertionSort _ l).mem_iff

theorem sorted_unique_sorted_lt (l : List Nat) :
    (sorted_unique l).Sorted (· < ·) := by
  unfold sorted_unique
  have hs : (l.insertionSort (· ≤ ·)).Sorted (· ≤ ·) :=
    List.sorted_insertionSort _ l
  have hsub := List.dedup_sublist (l.insertionSort (· ≤ ·))
  exact List.Sorted.lt_of_le (List.Pairwise.sublist hsub hs) (List.nodup_dedup _)

theorem parse_page_range_empty {e : String} (total_pages : Nat)
    (h : py_strip e = "") :
    parse_page_range e total_pages = .ok (List.range total_pages) := by
  unfold parse_page_range
  rw [if_pos h]

theorem parse_page_range_ok_sorted {e : String} {total_pages : Nat}
    {l : List Nat} (h : parse_page_range e total_pages = .ok l) :
    l.Sorted (· < ·) := by
  unfold parse_page_range at h
  split at h
  · cases h
    exact List.sorted_lt_range total_pages
  · cases hp : proc_tokens total_pages (py_split_comma e) with
    | error m => rw [hp] at h; cases h
    | ok idxs =>
      rw [hp] at h
      cases h
      exact sorted_unique_sorted_lt idxs

theorem parse_page_range_ok_bounds {e : String} {total_pages : Nat}
    {l : List Nat} (h : parse_page_range e total_pages = .ok l) :
    ∀ i ∈ l, i < total_pages := by
  unfold parse_page_range at h
  split at h
  · cases h
    intro i hi
    exact List.mem_range.mp hi
  · cases hp : proc_tokens total_pages (py_split_comma e) with
    | error m => rw [hp] at h; cases h
    | ok idxs =>
      rw [hp] at h
      cases h
      intro i hi
      exact proc_tokens_ok_bounds hp i (mem_sorted_unique.mp hi)

/-! ## Claim theorems -/

/-- C3: for every page-range expression `e` that `parse_page_range`
accepts and every total page count `N`, the result's indices are all
strictly below `N` (and being `Nat`, at least `0`), strictly ascending
(hence sorted with no duplicates); and an empty or whitespace-only
expression yields exactly `[0, 1, ..., N-1]`. -/
theorem parse_page_range_ok_props (e : String) (N : Nat) (l : List Nat)
    (h : parse_page_range e N = .ok l) :
    (∀ i ∈ l, i < N) ∧ l.Sorted (· < ·) ∧
      (py_strip e = "" → l = List.range N) := by
  refine ⟨parse_page_range_ok_bounds h, parse_page_range_ok_sorted h, ?_⟩
  intro he
  have h2 := parse_page_range_empty (e := e) N he
  rw [h] at h2
  injection h2

/-- Witness for C3 at `e = "3-9,1"`, `N = 4`, result `[0, 2, 3]`. -/
theorem parse_page_range_ok_props_witness :
    (∀ i ∈ ([0, 2, 3] : List Nat), i < 4) ∧
      ([0, 2, 3] : List Nat).Sorted (· < ·) ∧
      (py_strip "3-9,1" = "" → ([0, 2, 3] : List Nat) = List.range 4) :=
  parse_page_range_ok_props "3-9,1" 4 [0, 2, 3] (by rfl)

/-- C4: a numeric range token contributes exactly the interval with its
start clamped up to `0` and its end clamped down to `N - 1` — so both
resulting endpoints lie in `[0, N)` — and contributes nothing, without
an error, when the clamped start exceeds the clamped end; a single
numeric token outside `[1, N]` is silently dropped (no clamping); and
`parse_page_range "3-5" 4 = [2, 3]` (0-based). -/
theorem range_token_clamps_single_token_drops :
    (∀ (N : Nat) (tok : String) (st en : Int),
      py_contains tok '-' = true →
      str_to_int (before_dash tok) = some st →
      str_to_int (after_dash tok) = some en →
      proc_token N tok = .ok (clamped_range N st en) ∧
      (∀ i : Nat, i ∈ clamped_range N st en ↔
        (max (st - 1) 0 ≤ (i : Int) ∧
         (i : Int) ≤ min (en - 1) ((N : Int) - 1)))) ∧
    (∀ (N : Nat) (tok : String) (n : Int),
      py_contains tok '-' = false →
      str_to_int tok = some n →
      (n < 1 ∨ (N : Int) < n) →
      proc_token N tok = .ok []) ∧
    parse_page_range "3-5" 4 = .ok [2, 3] := by
  refine ⟨?_, ?_, by rfl⟩
  · intro N tok st en hdash hst hen
    have hne : tok ≠ "" := by
      intro hh
      subst hh
      simp [py_contains] at hdash
    refine ⟨?_, fun i => mem_clamped_range⟩
    unfold proc_token
    rw [if_neg hne, hdash]
    simp [hst, hen]
  · intro N tok n hdash hn hout
    by_cases hne : tok = ""
    · simp [proc_token, hne]
    · unfold proc_token
      rw [if_neg hne, hdash]
      simp [hn]
      omega

/-- Witness for C4: the range token `3-9` with `N = 4` contributes the
clamped interval, and the single token `7` with `N = 4` is dropped. -/
theorem range_token_clamps_single_token_drops_witness :
    proc_token 4 "3-9" = .ok (clamped_range 4 3 9) ∧
      proc_token 4 "7" = .ok [] := by
  constructor
  · exact (range_token_clamps_single_token_drops.1 4 "3-9" 3 9 (by rfl)
      (by rfl) (by rfl)).1
  · exact range_token_clamps_single_token_drops.2.1 4 "7" 7 (by rfl) (by rfl)
      (by omega)

/-! ## Splitter lemmas and claims -/

theorem split_pdf_pages_ok_shape {N : Nat} {dir : String} {pr : Option String}
    {res : SplitOk} {writes : List (String × List Nat)}
    (h : split_pdf_pages N dir pr = (.ok res, writes)) :
    ∃ sel, parse_page_range (pr.getD "") N = .ok sel ∧
      sel.Sorted (· < ·) ∧
      writes = [(dir ++ "/even_pages.pdf", even_pages_of sel),
                (dir ++ "/odd_pages.pdf", (odd_pages_of sel).reverse)] := by
  unfold split_pdf_pages at h
  split at h
  · simp at h
  · rename_i sel hp
    split at h
    · simp at h
    · simp only [Prod.mk.injEq, Except.ok.injEq] at h
      obtain ⟨-, h2⟩ := h
      exact ⟨sel, hp, parse_page_range_ok_sorted hp, h2.symm⟩

/-- C1: whenever `split_pdf_pages` succeeds and writes its two files, the
odd-pages file content is the reverse of an ascending sequence (largest
original page first) and the even-pages file content is ascending
(smallest first); and for a 6-page document fully selected, the written
odd pages by original 1-based number are `[5, 3, 1]` and the even pages
are `[2, 4, 6]`. -/
theorem split_output_order (N : Nat) (dir : String) (pr : Option String)
    (res : SplitOk) (pe po : String) (evenC oddC : List Nat)
    (h : split_pdf_pages N dir pr = (.ok res, [(pe, evenC), (po, oddC)])) :
    oddC.reverse.Sorted (· < ·) ∧ evenC.Sorted (· < ·) ∧
      (split_pdf_pages 6 "out" none).2.map (fun w => w.2.map (· + 1)) =
        [[2, 4, 6], [5, 3, 1]] := by
  obtain ⟨sel, _, hsorted, hw⟩ := split_pdf_pages_ok_shape h
  simp only [List.cons.injEq, Prod.mk.injEq, and_true] at hw
  obtain ⟨⟨-, hev⟩, -, hod⟩ := hw
  refine ⟨?_, ?_, by rfl⟩
  · rw [hod, List.reverse_reverse]
    unfold odd_pages_of
    exact List.Pairwise.filter _ hsorted
  · rw [hev]
    unfold even_pages_of
    exact List.Pairwise.filter _ hsorted

/-- Witness for C1 at the fully selected 6-page document. -/
theorem split_output_order_witness :
    ([4, 2, 0] : List Nat).reverse.Sorted (· < ·) ∧
      ([1, 3, 5] : List Nat).Sorted (· < ·) ∧
      (split_pdf_pages 6 "out" none).2.map (fun w => w.2.map (· + 1)) =
        [[2, 4, 6], [5, 3, 1]] :=
  split_output_order 6 "out" none
    ⟨"out/odd_pages.pdf", "out/even_pages.pdf", 6, 6⟩
    "out/even_pages.pdf" "out/odd_pages.pdf" [1, 3, 5] [4, 2, 0] (by rfl)

/-- C2: the partition loop of `split_pdf_pages` splits any selection
completely by original-position parity: the two part lengths sum to the
selection length, and a selected index `i` lands in `odd_pages` exactly
when `i % 2 = 0` (0-based even positions are the document's 1st, 3rd,
5th… human-numbered pages), otherwise in `even_pages`. -/
theorem split_partition_parity (sel : List Nat) :
    (odd_pages_of sel).length + (even_pages_of sel).length = sel.length ∧
      ∀ i ∈ sel, (i ∈ odd_pages_of sel ↔ i % 2 = 0) ∧
        (i ∈ even_pages_of sel ↔ i % 2 ≠ 0) := by
  constructor
  · unfold odd_pages_of even_pages_of
    induction sel with
    | nil => rfl
    | cons a rest ih =>
      rcases Nat.mod_two_eq_zero_or_one a with ha | ha <;>
        simp [List.filter_cons, ha] <;> omega
  · intro i hi
    constructor
    · unfold odd_pages_of
      rw [List.mem_filter]
      simp only [hi, true_and, beq_iff_eq]
    · unfold even_pages_of
      rw [List.mem_filter]
      simp only [hi, true_and, beq_iff_eq]
      omega

/-- Witness for C2 at the selection `[0, 1, 2]` and index `2`. -/
theorem split_partition_parity_witness :
    (2 ∈ odd_pages_of [0, 1, 2] ↔ 2 % 2 = 0) ∧
      (2 ∈ even_pages_of [0, 1, 2] ↔ 2 % 2 ≠ 0) :=
  (split_partition_parity [0, 1, 2]).2 2 (by decide)

/-- C10: when the resolved selection is empty, `split_pdf_pages` raises
the no-pages-selected error and its write trace is empty — neither the
odd-pages file nor the even-pages file is created. -/
theorem split_empty_selection_writes_nothing (N : Nat) (dir : String)
    (pr : Option String) (h : parse_page_range (pr.getD "") N = .ok []) :
    split_pdf_pages N dir pr = (.error "没有选择任何页面", []) := by
  unfold split_pdf_pages
  rw [h]
  rfl

/-- Witness for C10: a 1-page document with range `"5"` resolves to the
empty selection. -/
theorem split_empty_selection_writes_nothing_witness :
    split_pdf_pages 1 "out" (some "5") = (.error "没有选择任何页面", []) :=
  split_empty_selection_writes_nothing 1 "out" (some "5") (by rfl)

/-! ## Session claims -/

/-- C5: the resume endpoint's `can_continue` signal is true exactly when
the session's `even_printed` flag is true, its `odd_printed` flag is
false, and the odd-pages file still exists on disk; it is false in every
other combination of those three conditions. -/
theorem can_continue_iff (session_id : String) (s : SessionInfo)
    (path_exists : String → Bool) :
    (get_session_info session_id s path_exists).can_continue = true ↔
      (s.even_printed = true ∧ s.odd_printed = false ∧
       path_exists s.odd_path = true) := by
  unfold get_session_info
  simp [Bool.and_eq_true, Bool.not_eq_true', and_assoc]

/-- Concrete session record used as the counterexample input for C6. -/
def session_c6 : SessionInfo :=
  ⟨"a.pdf", "uploads/a.pdf", "temp/x", "temp/x/odd_pages.pdf",
   "temp/x/even_pages.pdf", 6, 6, none, false, false, none, none,
   some "PrinterA"⟩

/-- C6 counterexample: after a successful odd-pages submission with no
printer named, the session's `printer_name` field — a field other than
the odd printed-flag/job-id pair — is not left unchanged, refuting the
claim that every other session field is unmodified. -/
theorem print_submission_changes_printer_name :
    (apply_odd_print_success session_c6 none (some "HP-1")).printer_name ≠
      session_c6.printer_name := by
  decide

/-- C6 amended: each successful print submission for a subset sets that
subset's printed flag and job id and additionally overwrites the
session's `printer_name` with the printer named in the request; all
remaining session fields are unchanged. -/
theorem print_submission_field_updates (s : SessionInfo)
    (printer job : Option String) :
    ((apply_odd_print_success s printer job).odd_printed = true ∧
     (apply_odd_print_success s printer job).odd_job_id = job ∧
     (apply_odd_print_success s printer job).printer_name = printer ∧
     (apply_odd_print_success s printer job).even_printed = s.even_printed ∧
     (apply_odd_print_success s printer job).even_job_id = s.even_job_id ∧
     (apply_odd_print_success s printer job).filename = s.filename ∧
     (apply_odd_print_success s printer job).upload_path = s.upload_path ∧
     (apply_odd_print_success s printer job).temp_dir = s.temp_dir ∧
     (apply_odd_print_success s printer job).odd_path = s.odd_path ∧
     (apply_odd_print_success s printer job).even_path = s.even_path ∧
     (apply_odd_print_success s printer job).total_pages = s.total_pages ∧
     (apply_odd_print_success s printer job).selected_count = s.selected_count ∧
     (apply_odd_print_success s printer job).page_range = s.page_range) ∧
    ((apply_even_print_success s printer job).even_printed = true ∧
     (apply_even_print_success s printer job).even_job_id = job ∧
     (apply_even_print_success s printer job).printer_name = printer ∧
     (apply_even_print_success s printer job).odd_printed = s.odd_printed ∧
     (apply_even_print_success s printer job).odd_job_id = s.odd_job_id ∧
     (apply_even_print_success s printer job).filename = s.filename ∧
     (apply_even_print_success s printer job).upload_path = s.upload_path ∧
     (apply_even_print_success s printer job).temp_dir = s.temp_dir ∧
     (apply_even_print_success s printer job).odd_path = s.odd_path ∧
     (apply_even_print_success s printer job).even_path = s.even_path ∧
     (apply_even_print_success s printer job).total_pages = s.total_pages ∧
     (apply_even_print_success s printer job).selected_count = s.selected_count ∧
     (apply_even_print_success s printer job).page_range = s.page_range) := by
  simp [apply_odd_print_success, apply_even_print_success]

/-! ## Print submission claim -/

/-- C7: when the file to print does not exist, or exists but is not
readable, `print_pdf` returns a failed result carrying an error message
and its process trace is empty — no external process of any kind (print
command, `which` lookup, or default-printer query) is spawned. -/
theorem print_pdf_no_process_on_bad_file (os : OsEnv) (pdf_path : String)
    (printer_name : Option String) (print_quality output_order : String)
    (h : os.path_exists pdf_path = false ∨ os.readable pdf_path = false) :
    (print_pdf os pdf_path printer_name print_quality output_order).2 = [] ∧
    (print_pdf os pdf_path printer_name print_quality output_order).1.success
      = false ∧
    (print_pdf os pdf_path printer_name print_quality
      output_order).1.error.isSome = true := by
  rcases h with h | h
  · simp [print_pdf, h]
  · cases hpe : os.path_exists pdf_path with
    | false => simp [print_pdf, hpe]
    | true => simp [print_pdf, hpe, h]

/-- OS environment in which nothing exists, for the C7 witness. -/
def os_env_c7 : OsEnv :=
  ⟨fun _ => false, fun _ => false, fun _ => false, fun _ => RunOutcome.timedOut⟩

/-- Witness for C7 at a missing file in `os_env_c7`. -/
theorem print_pdf_no_process_on_bad_file_witness :
    (print_pdf os_env_c7 "missing.pdf" none "Normal" "normal").2 = [] ∧
    (print_pdf os_env_c7 "missing.pdf" none "Normal" "normal").1.success
      = false ∧
    (print_pdf os_env_c7 "missing.pdf" none "Normal" "normal").1.error.isSome
      = true :=
  print_pdf_no_process_on_bad_file os_env_c7 "missing.pdf" none "Normal"
    "normal" (Or.inl rfl)

/-! ## Status resolver claim -/

theorem parse_queue_lines_no_jobs :
    ∀ (lines : List String),
      (∀ l ∈ lines, new_job_of_line (py_strip l) = none) →
      parse_queue_lines lines none = [] := by
  intro lines
  induction lines with
  | nil => intro _; rfl
  | cons l rest ih =>
    intro h
    have hrest := ih fun x hx => h x (List.mem_cons_of_mem _ hx)
    unfold parse_queue_lines
    by_cases hb : py_strip l = ""
    · simp only [hb, if_pos rfl]
      exact hrest
    · simp only [if_neg hb]
      rw [h l (List.mem_cons_self _ _)]
      exact hrest

/-- C8: the status resolver's line-by-line parse is total — a line that
matches no job pattern with no job open is skipped, so on a listing
whose stripped lines all match no job pattern (arbitrary garbage, blank
lines included) the result is a success envelope with an empty job list;
in particular the empty listing yields exactly that. -/
theorem status_resolver_resilient (stdout : String)
    (h : ∀ l ∈ py_splitlines stdout, new_job_of_line (py_strip l) = none) :
    get_print_job_status_of_listing stdout =
      ⟨true, [], 0, false⟩ ∧
    get_print_job_status_of_listing "" = ⟨true, [], 0, false⟩ := by
  have hj := parse_queue_lines_no_jobs (py_splitlines stdout) h
  constructor
  · unfold get_print_job_status_of_listing
    rw [hj]
    rfl
  · rfl

/-- Witness for C8 at a garbage listing containing an unrecognizable
word line, a dashed-but-nonnumeric line, a blank line and punctuation. -/
theorem status_resolver_resilient_witness :
    get_print_job_status_of_listing "total 0\nfoo-bar baz\n\n???" =
      ⟨true, [], 0, false⟩ ∧
    get_print_job_status_of_listing "" = ⟨true, [], 0, false⟩ :=
  status_resolver_resilient "total 0\nfoo-bar baz\n\n???" (by decide)

/-! ## Parser error claim -/

theorem proc_tokens_error_after_ok_prefix {total_pages : Nat} {bad msg : String}
    (hbad : proc_token total_pages bad = .error msg) :
    ∀ (pre post : List String),
      (∀ p ∈ pre, ∃ c, proc_token total_pages p = .ok c) →
      proc_tokens total_pages (pre ++ bad :: post) = .error msg := by
  intro pre
  induction pre with
  | nil =>
    intro post _
    show proc_tokens total_pages (bad :: post) = .error msg
    unfold proc_tokens
    rw [hbad]
  | cons p rest ih =>
    intro post h
    obtain ⟨c, hc⟩ := h p (List.mem_cons_self _ _)
    have hrest := ih post fun x hx => h x (List.mem_cons_of_mem _ hx)
    show proc_tokens total_pages (p :: (rest ++ bad :: post)) = .error msg
    unfold proc_tokens
    rw [hc, hrest]

/-- C9: when the comma-split token list of a nonempty expression has a
first invalid token `bad` (every earlier token processed without error,
`bad` raising), `parse_page_range` raises exactly that token's error;
an integer-free dashless token raises `无效的页码: <token>` and a dashed
token whose halves fail integer parsing raises
`无效的页码范围格式: <token>` — each message naming the offending token —
and in particular `parse_page_range "abc" 10` fails naming `"abc"`. -/
theorem invalid_token_raises_format_error :
    (∀ (e : String) (N : Nat) (pre post : List String) (bad msg : String),
      py_strip e ≠ "" →
      py_split_comma e = pre ++ bad :: post →
      (∀ p ∈ pre, ∃ c, proc_token N p = .ok c) →
      proc_token N bad = .error msg →
      parse_page_range e N = .error msg) ∧
    (∀ (N : Nat) (tok : String),
      tok ≠ "" → py_contains tok '-' = false → str_to_int tok = none →
      proc_token N tok = .error ("无效的页码: " ++ tok)) ∧
    (∀ (N : Nat) (tok : String),
      py_contains tok '-' = true →
      (str_to_int (before_dash tok) = none ∨
       str_to_int (after_dash tok) = none) →
      proc_token N tok = .error ("无效的页码范围格式: " ++ tok)) ∧
    parse_page_range "abc" 10 = .error ("无效的页码: " ++ "abc") := by
  refine ⟨?_, ?_, ?_, by rfl⟩
  · intro e N pre post bad msg he hsplit hpre hbad
    unfold parse_page_range
    rw [if_neg he, hsplit, proc_tokens_error_after_ok_prefix hbad pre post hpre]
  · intro N tok hne hdash hn
    unfold proc_token
    rw [if_neg hne, hdash]
    simp [hn]
  · intro N tok hdash hfail
    have hne : tok ≠ "" := by
      intro hh
      subst hh
      simp [py_contains] at hdash
    unfold proc_token
    rw [if_neg hne, hdash]
    rcases hst : str_to_int (before_dash tok) with _ | st
    · simp
    · rcases hen : str_to_int (after_dash tok) with _ | en
      · simp
      · rw [hst, hen] at hfail
        rcases hfail with hfail | hfail <;> cases hfail

/-- Witness for C9 at the expression `"abc"` with `N = 10`. -/
theorem invalid_token_raises_format_error_witness :
    parse_page_range "abc" 10 = .error ("无效的页码: " ++ "abc") :=
  invalid_token_raises_format_error.1 "abc" 10 [] [] "abc"
    ("无效的页码: " ++ "abc") (by decide) (by rfl) (by simp)
    (invalid_token_raises_format_error.2.1 10 "abc" (by decide) (by rfl)
      (by rfl))
